import Mathlib

/-!
# Verification of the libert DeBERTa extension (`deberta_model.py`)

Shallow embedding, over `ℚ`, of the parts of
`nlp_architect/models/libert/deberta_model.py` that the specification talks
about:

* `CustomDisentangledSelfAttention.disentangled_att_bias` (the c2p / p2c
  relative-position terms, their pivot-phrase masked variants, and the
  c2m / m2c mark terms),
* the raw attention-score accumulation of
  `CustomDisentangledSelfAttention.forward`,
* `CustomDebertaConfig.add_extra_args`,
* the construction-time hidden-size check of
  `CustomDisentangledSelfAttention.__init__`,
* the masked cross-entropy loss and the two-pass VAT loop of
  `CustomDebertaForTokenClassification.forward`,
* the `z_steps` refinement branch of `CustomDebertaModel.forward`.

Tensors are embedded as curried index functions `ℕ → ⋯ → ℚ` (index
bounds are carried separately where a sum needs them); machine floats are
idealised as rationals, and the two square-root scale constants of the
Python code (which are irrational) are taken as explicit parameters.
Fallible code is embedded with `Except String`.  Reverse-mode autodiff
state (`.backward()` accumulation, `zero_grad()`, `torch.no_grad()` /
detached tensors) is embedded by an explicit gradient-buffer state plus a
small differentiable-expression language with a `detach` constructor.
-/

namespace Libert

/-! ## A differentiable-expression language with `detach`

This embeds the autodiff graph semantics that the VAT code path of
`CustomDebertaForTokenClassification.forward` relies on: an expression
built under `torch.no_grad()` (modelled by the `detach` constructor)
contributes no derivative.  Variables are numbered; evaluation takes an
environment `ρ : ℕ → ℚ`. -/

inductive Expr where
  | const : ℚ → Expr
  | var : ℕ → Expr
  | add : Expr → Expr → Expr
  | mul : Expr → Expr → Expr
  | detach : Expr → Expr
deriving Repr, DecidableEq

/-- Value of an expression in environment `ρ`; `detach` is the identity on
values (it only cuts the autodiff graph). -/
def Expr.eval (ρ : ℕ → ℚ) : Expr → ℚ
  | .const c => c
  | .var i => ρ i
  | .add a b => a.eval ρ + b.eval ρ
  | .mul a b => a.eval ρ * b.eval ρ
  | .detach a => a.eval ρ

/-- Derivative of an expression with respect to variable `i`, at
environment `ρ`.  Anything under `detach` has derivative `0`, exactly as a
tensor produced inside `torch.no_grad()` has no grad edge. -/
def Expr.deriv (ρ : ℕ → ℚ) (i : ℕ) : Expr → ℚ
  | .const _ => 0
  | .var j => if j = i then 1 else 0
  | .add a b => a.deriv ρ i + b.deriv ρ i
  | .mul a b => a.deriv ρ i * b.eval ρ + a.eval ρ * b.deriv ρ i
  | .detach _ => 0

/-- Substitute expression `u` for variable `j` in the first argument. -/
def Expr.subst : Expr → ℕ → Expr → Expr
  | .const c, _, _ => .const c
  | .var k, j, u => if k = j then u else .var k
  | .add a b, j, u => .add (a.subst j u) (b.subst j u)
  | .mul a b, j, u => .mul (a.subst j u) (b.subst j u)
  | .detach a, j, u => .detach (a.subst j u)

/-- Predicate `e.avoids i`: holds when variable `i` does not occur in `e` at all. -/
def Expr.avoids (i : ℕ) : Expr → Bool
  | .const _ => true
  | .var j => j ≠ i
  | .add a b => a.avoids i && b.avoids i
  | .mul a b => a.avoids i && b.avoids i
  | .detach a => a.avoids i

/-- Predicate `e.detachedIn i`: holds when every occurrence of variable `i` in `e`
lies below a `detach` node. -/
def Expr.detachedIn (i : ℕ) : Expr → Bool
  | .const _ => true
  | .var j => j ≠ i
  | .add a b => a.detachedIn i && b.detachedIn i
  | .mul a b => a.detachedIn i && b.detachedIn i
  | .detach _ => true

/-! ## Disentangled self-attention bias

Embedding of `CustomDisentangledSelfAttention.disentangled_att_bias`
(source lines 329-461) and the score accumulation of its `forward`
(lines 283-302).  A 4-d tensor of shape `(B, H, Q, K)` is a function
`ℕ → ℕ → ℕ → ℕ → ℚ`; linear layers carry their weight matrix as
`(out-index → in-index → ℚ)`.  The relative-position tensor is carried in
its broadcast-normalised `(q, k) ↦ ℤ` form together with the rank
(`relPosDim`) of the tensor the caller supplied, which the Python code
inspects before normalising. -/

/-- Embeds `torch.clamp` on integers. -/
def clampZ (x lo hi : ℤ) : ℤ := min (max x lo) hi

/-- Embeds `torch.nn.Linear` without bias: `y = x Wᵀ`, i.e.
`y j = ∑ i, x i * W j i` over `inDim` input features. -/
def linearNoBias (inDim : ℕ) (W : ℕ → ℕ → ℚ) (x : ℕ → ℚ) (j : ℕ) : ℚ :=
  ∑ i ∈ Finset.range inDim, x i * W j i

/-- Embeds `torch.nn.Linear` with bias: `y = x Wᵀ + b`. -/
def linearWithBias (inDim : ℕ) (W : ℕ → ℕ → ℚ) (b : ℕ → ℚ) (x : ℕ → ℚ)
    (j : ℕ) : ℚ :=
  linearNoBias inDim W x j + b j

/-- Everything `disentangled_att_bias` reads: the configuration flags and
scalars fixed by `__init__` (`pos_att_type` membership is one Boolean per
term), the weights of the projection layers, and the per-call tensor
arguments.  `ppEmb` is the `mark_embeddings` argument in the pivot-phrase
scheme (a `(2·max_rel, hidden)` table, like `rel_embeddings`); `markEmb`
is the same Python argument in the mark scheme, where it is a
`(B, S, hidden)` per-token tensor — the two schemes are mutually
exclusive, so the single Python parameter splits into two fields here.
`sqrtPosScale` stands for the irrational constant
`math.sqrt(pos_query_layer.size(-1) * scale_factor)` of line 403. -/
structure AttCtx where
  numHeads : ℕ
  headSize : ℕ
  hiddenSize : ℕ
  maxRelPos : ℕ
  c2pEnabled : Bool
  p2cEnabled : Bool
  p2pEnabled : Bool
  c2pPPEnabled : Bool
  p2cPPEnabled : Bool
  c2mEnabled : Bool
  m2cEnabled : Bool
  c2mScalar : ℚ
  m2cScalar : ℚ
  posProjW : ℕ → ℕ → ℚ
  posQProjW : ℕ → ℕ → ℚ
  posQProjB : ℕ → ℚ
  markProjW : ℕ → ℕ → ℚ
  markProjB : ℕ → ℚ
  markQProjW : ℕ → ℕ → ℚ
  markQProjB : ℕ → ℚ
  seqQ : ℕ
  seqK : ℕ
  query : ℕ → ℕ → ℕ → ℕ → ℚ
  key : ℕ → ℕ → ℕ → ℕ → ℚ
  relPosDim : ℕ
  relPos : ℕ → ℕ → ℤ
  relEmb : ℕ → ℕ → ℚ
  ppEmb : Option (ℕ → ℕ → ℚ)
  markEmb : Option (ℕ → ℕ → ℕ → ℚ)
  marks : Option (ℕ → ℕ → ℤ)
  sqrtPosScale : ℚ

/-- Embeds `att_span = min(max(q, k), max_relative_positions)` (line 341). -/
def attSpan (ctx : AttCtx) : ℕ := min (max ctx.seqQ ctx.seqK) ctx.maxRelPos

/-- The slice `rel_embeddings[max_rel - att_span : max_rel + att_span, :]`
(lines 343-345). -/
def slicedRelEmb (ctx : AttCtx) (p i : ℕ) : ℚ :=
  ctx.relEmb (ctx.maxRelPos - attSpan ctx + p) i

/-- The same slice of the pivot-phrase table (lines 346-349); the `none`
case never feeds a claim (the Python code would fail slicing `None`). -/
def slicedPPEmb (ctx : AttCtx) (p i : ℕ) : ℚ :=
  (ctx.ppEmb.getD fun _ _ => 0) (ctx.maxRelPos - attSpan ctx + p) i

/-- The mark tensor, defaulting to zeros when absent. -/
def marksD (ctx : AttCtx) (b s : ℕ) : ℤ :=
  (ctx.marks.getD fun _ _ => 0) b s

/-- The per-token mark-embedding tensor, defaulting to zeros when
absent. -/
def markEmbD (ctx : AttCtx) (b s i : ℕ) : ℚ :=
  (ctx.markEmb.getD fun _ _ _ => 0) b s i

/-- Embeds `pos_key_layer = transpose_for_scores(pos_proj(rel_embeddings))`
(lines 351-353): head `h`, relative offset `p`, head dimension `e`. -/
def posKeyHeads (ctx : AttCtx) (h p e : ℕ) : ℚ :=
  linearNoBias ctx.hiddenSize ctx.posProjW (slicedRelEmb ctx p)
    (h * ctx.headSize + e)

/-- Embeds `pos_query_layer = transpose_for_scores(pos_q_proj(rel_embeddings))`
(lines 355-357) after the in-place division by
`math.sqrt(pos_query_layer.size(-1) * scale_factor)` of line 403. -/
def posQueryHeads (ctx : AttCtx) (h p e : ℕ) : ℚ :=
  linearWithBias ctx.hiddenSize ctx.posQProjW ctx.posQProjB
    (slicedRelEmb ctx p) (h * ctx.headSize + e) / ctx.sqrtPosScale

/-- Embeds `pp_key_layer = transpose_for_scores(pos_proj(mark_embeddings))`
(lines 360-362) in the pivot-phrase scheme. -/
def ppKeyHeads (ctx : AttCtx) (h p e : ℕ) : ℚ :=
  linearNoBias ctx.hiddenSize ctx.posProjW (slicedPPEmb ctx p)
    (h * ctx.headSize + e)

/-- Embeds `pp_query_layer = transpose_for_scores(pos_q_proj(mark_embeddings))`
(lines 363-365).  Note: the line-403 division only rescales
`pos_query_layer` in place; `pp_query_layer` is not divided. -/
def ppQueryHeads (ctx : AttCtx) (h p e : ℕ) : ℚ :=
  linearWithBias ctx.hiddenSize ctx.posQProjW ctx.posQProjB
    (slicedPPEmb ctx p) (h * ctx.headSize + e)

/-- Embeds `mark_key_layer = transpose_for_scores(mark_proj(mark_embeddings))`
(lines 371-373) in the mark scheme, where `mark_embeddings` is a
`(B, S, hidden)` tensor. -/
def markKeyHeads (ctx : AttCtx) (b h s e : ℕ) : ℚ :=
  linearWithBias ctx.hiddenSize ctx.markProjW ctx.markProjB
    (markEmbD ctx b s) (h * ctx.headSize + e)

/-- Embeds `mark_query_layer = transpose_for_scores(mark_q_proj(mark_embeddings))`
(lines 368-370). -/
def markQueryHeads (ctx : AttCtx) (b h s e : ℕ) : ℚ :=
  linearWithBias ctx.hiddenSize ctx.markQProjW ctx.markQProjB
    (markEmbD ctx b s) (h * ctx.headSize + e)

/-- Embeds `c2p_pos = torch.clamp(relative_pos + att_span, 0, att_span*2 - 1)`
(line 379), as a gather index. -/
def c2pPosIdx (ctx : AttCtx) (q k : ℕ) : ℕ :=
  (clampZ (ctx.relPos q k + (attSpan ctx : ℤ)) 0 (2 * (attSpan ctx : ℤ) - 1)).toNat

/-- Embeds `c2p_att` after the matmul against `pos_key_layer` and the gather
along the clamped relative position (lines 378-381); this is the tensor
cloned into `c2p_att_orig`. -/
def c2pAttOrig (ctx : AttCtx) (b h q k : ℕ) : ℚ :=
  ∑ e ∈ Finset.range ctx.headSize,
    ctx.query b h q e * posKeyHeads ctx h (c2pPosIdx ctx q k) e

/-- Embeds `c2p_att_pp` (lines 387-388): the same matmul/gather against
`pp_key_layer`. -/
def c2pAttPPv (ctx : AttCtx) (b h q k : ℕ) : ℚ :=
  ∑ e ∈ Finset.range ctx.headSize,
    ctx.query b h q e * ppKeyHeads ctx h (c2pPosIdx ctx q k) e

/-- The `c2p_att` variable as it stands when added into `score`
(line 399): when the pivot-phrase conditions of line 383 hold it is the
`torch.where` of line 391 with the marks reshaped to `(B, 1, 1, K)`
(line 385, selector index `k`); otherwise the standard tensor. -/
def c2pTerm (ctx : AttCtx) (b h q k : ℕ) : ℚ :=
  if ctx.ppEmb.isSome && ctx.marks.isSome && ctx.c2pPPEnabled then
    (if marksD ctx b k = 1 then c2pAttPPv ctx b h q k else c2pAttOrig ctx b h q k)
  else c2pAttOrig ctx b h q k

/-- Embeds `r_pos` (lines 404-407): rebuilt against the key length when query
and key lengths differ (`build_relative_position(k, k)` is
`(i, j) ↦ i - j`), else the shared relative-position tensor. -/
def p2cRelPos (ctx : AttCtx) (i j : ℕ) : ℤ :=
  if ctx.seqQ ≠ ctx.seqK then (i : ℤ) - (j : ℤ) else ctx.relPos i j

/-- Embeds `p2c_pos = torch.clamp(-r_pos + att_span, 0, att_span*2 - 1)`
(line 408). -/
def p2cPosIdx (ctx : AttCtx) (i j : ℕ) : ℕ :=
  (clampZ (-(p2cRelPos ctx i j) + (attSpan ctx : ℤ)) 0 (2 * (attSpan ctx : ℤ) - 1)).toNat

/-- Embeds `p2c_att` after matmul against `pos_query_layer` and the gather of
lines 413-416, before the transpose: index `(b, h, i, j)` reads offset
`p2c_pos[i, j]` of key row `i`. -/
def p2cGathered (ctx : AttCtx) (b h i j : ℕ) : ℚ :=
  ∑ e ∈ Finset.range ctx.headSize,
    ctx.key b h i e * posQueryHeads ctx h (p2cPosIdx ctx i j) e

/-- Embeds `p2c_att` after `.transpose(-1, -2)` (line 416) and, when the
lengths differ, the extra `pos_index` gather of lines 417-418
(`pos_index = relative_pos[:, :, :, 0]`); this is the tensor cloned into
`p2c_att_orig`. -/
def p2cAttOrig (ctx : AttCtx) (b h q k : ℕ) : ℚ :=
  if ctx.seqQ ≠ ctx.seqK then
    p2cGathered ctx b h k ((ctx.relPos q 0).toNat)
  else p2cGathered ctx b h k q

/-- Embeds `p2c_att_pp` (lines 429-430): matmul of `key` against
`pp_query_layer`, gathered with `p2c_pos` — the source applies no
`.transpose(-1, -2)` to this tensor. -/
def p2cAttPPv (ctx : AttCtx) (b h q k : ℕ) : ℚ :=
  ∑ e ∈ Finset.range ctx.headSize,
    ctx.key b h q e * ppQueryHeads ctx h (p2cPosIdx ctx q k) e

/-- The `p2c_att` variable as it stands when added into `score`
(line 441): the `torch.where` of line 433 with the marks reshaped to
`(B, 1, S, 1)` (line 428, selector index `q`) when the conditions of
line 426 hold, else the standard tensor. -/
def p2cTerm (ctx : AttCtx) (b h q k : ℕ) : ℚ :=
  if ctx.ppEmb.isSome && ctx.marks.isSome && ctx.p2cPPEnabled then
    (if marksD ctx b q = 1 then p2cAttPPv ctx b h q k else p2cAttOrig ctx b h q k)
  else p2cAttOrig ctx b h q k

/-- Embeds `c2m_att = torch.matmul(query_layer, mark_key_layer.transpose(-1, -2))`
(line 446), before the scalar multiplication. -/
def c2mAttRaw (ctx : AttCtx) (b h q k : ℕ) : ℚ :=
  ∑ e ∈ Finset.range ctx.headSize,
    ctx.query b h q e * markKeyHeads ctx b h k e

/-- Embeds `m2c_att = torch.matmul(mark_query_layer, key_layer.transpose(-1, -2))`
(line 452), before the scalar multiplication. -/
def m2cAttRaw (ctx : AttCtx) (b h q k : ℕ) : ℚ :=
  ∑ e ∈ Finset.range ctx.headSize,
    markQueryHeads ctx b h q e * ctx.key b h k e

/-- The running `score` of lines 375-454: each enabled term is added in
turn, `c2m_att` and `m2c_att` multiplied by their configured scalars. -/
def attBiasScore (ctx : AttCtx) (b h q k : ℕ) : ℚ :=
  (if ctx.c2pEnabled then c2pTerm ctx b h q k else 0) +
  (if ctx.p2cEnabled then p2cTerm ctx b h q k else 0) +
  (if ctx.c2mEnabled then ctx.c2mScalar * c2mAttRaw ctx b h q k else 0) +
  (if ctx.m2cEnabled then ctx.m2cScalar * m2cAttRaw ctx b h q k else 0)

/-- The tuple returned by `disentangled_att_bias` (lines 456-461):
`(score, c2p_att_orig, p2c_att_orig)`, extended with
`(c2p_att_pp, p2c_att_pp)` when a pivot-phrase flag is set and with
`(c2m_att, m2c_att)` (the scaled tensors) when a mark flag is set.  The
optional members are `none` both when the flag that appends them is off
and when the Python value would be `None`. -/
structure AttBiasOutput where
  score : ℕ → ℕ → ℕ → ℕ → ℚ
  c2pOrig : ℕ → ℕ → ℕ → ℕ → ℚ
  p2cOrig : ℕ → ℕ → ℕ → ℕ → ℚ
  c2pPPRet : Option (ℕ → ℕ → ℕ → ℕ → ℚ)
  p2cPPRet : Option (ℕ → ℕ → ℕ → ℕ → ℚ)
  c2mRet : Option (ℕ → ℕ → ℕ → ℕ → ℚ)
  m2cRet : Option (ℕ → ℕ → ℕ → ℕ → ℚ)

/-- The successful return value of `disentangled_att_bias`. -/
def attOutput (ctx : AttCtx) : AttBiasOutput where
  score := attBiasScore ctx
  c2pOrig := c2pAttOrig ctx
  p2cOrig := p2cAttOrig ctx
  c2pPPRet :=
    if (ctx.c2pPPEnabled || ctx.p2cPPEnabled) &&
        (ctx.ppEmb.isSome && ctx.marks.isSome && ctx.c2pPPEnabled) then
      some (c2pAttPPv ctx)
    else none
  p2cPPRet :=
    if (ctx.c2pPPEnabled || ctx.p2cPPEnabled) &&
        (ctx.ppEmb.isSome && ctx.marks.isSome && ctx.p2cPPEnabled) then
      some (p2cAttPPv ctx)
    else none
  c2mRet :=
    if (ctx.c2mEnabled || ctx.m2cEnabled) && ctx.c2mEnabled then
      some fun b h q k => ctx.c2mScalar * c2mAttRaw ctx b h q k
    else none
  m2cRet :=
    if (ctx.c2mEnabled || ctx.m2cEnabled) && ctx.m2cEnabled then
      some fun b h q k => ctx.m2cScalar * m2cAttRaw ctx b h q k
    else none

/-- Embeds `disentangled_att_bias` as a fallible computation.  The rank of the
supplied relative-position tensor is checked first (lines 333-339): only
ranks 2, 3 and 4 are normalised, every other rank raises before any
tensor arithmetic runs.  The later raise paths follow in source order:
when a pivot-phrase flag is set, line 347 slices `mark_embeddings[...]`,
a `TypeError` if that argument is `None`; `pp_key_layer` and
`pp_query_layer` (lines 360-365) read `self.pos_proj` / `self.pos_q_proj`,
attributes that `__init__` only created when c2p/p2p resp. p2c/p2p is
enabled, an `AttributeError` otherwise; the mark projections of lines
368-373 (m2c first, then c2m) applied to a `None` `mark_embeddings`
raise `TypeError`; and building the return tuple at line 456 reads the
local names `c2p_att_orig` and `p2c_att_orig`, which were only assigned
inside the `"c2p"` (line 381) and `"p2c"` (line 419) blocks — when either
membership test failed, Python raises `UnboundLocalError` there. -/
def disentangledAttBias (ctx : AttCtx) : Except String AttBiasOutput :=
  if ctx.relPosDim = 2 ∨ ctx.relPosDim = 3 ∨ ctx.relPosDim = 4 then
    if (ctx.c2pPPEnabled || ctx.p2cPPEnabled) && !ctx.ppEmb.isSome then
      Except.error "TypeError: 'NoneType' object is not subscriptable"
    else if ctx.c2pPPEnabled && !(ctx.c2pEnabled || ctx.p2pEnabled) then
      Except.error "AttributeError: object has no attribute pos_proj"
    else if ctx.p2cPPEnabled && !(ctx.p2cEnabled || ctx.p2pEnabled) then
      Except.error "AttributeError: object has no attribute pos_q_proj"
    else if ctx.m2cEnabled && !ctx.markEmb.isSome then
      Except.error "TypeError: mark_q_proj applied to None"
    else if ctx.c2mEnabled && !ctx.markEmb.isSome then
      Except.error "TypeError: mark_proj applied to None"
    else if ctx.c2pEnabled then
      if ctx.p2cEnabled then
        Except.ok (attOutput ctx)
      else
        Except.error "UnboundLocalError: local variable p2c_att_orig referenced before assignment"
    else
      Except.error "UnboundLocalError: local variable c2p_att_orig referenced before assignment"
  else
    Except.error ("Relative position ids must be of dim 2 or 3 or 4. " ++ toString ctx.relPosDim)

/-- The content-to-content scores
`torch.matmul(query_layer, key_layer.transpose(-1, -2))` of `forward`
line 288; `ctx.query` holds `query_layer` as it stands after the
division by `scale` at line 287, which is exactly the tensor
`disentangled_att_bias` also receives. -/
def contentScore (ctx : AttCtx) (b h q k : ℕ) : ℚ :=
  ∑ e ∈ Finset.range ctx.headSize, ctx.query b h q e * ctx.key b h k e

/-- Embeds `attention_scores = attention_scores + rel_att` (lines 301-302) on
the relative-attention path: the accumulated raw attention score before
the masked softmax. -/
def accumulatedAttentionScores (ctx : AttCtx) (b h q k : ℕ) : ℚ :=
  contentScore ctx b h q k + attBiasScore ctx b h q k

/-- Modelled from the spec: the standard two-term (c2p + p2c)
disentangled attention score of the unmodified base implementation,
which is not part of this repository.  Following the spec's algorithm
(section 4.1): the c2p term is the query-against-projected-relative-
embedding product gathered along the clamped relative position; the p2c
term is the key-against-projected-relative-embedding product (scaled by
the square root of head size times scale factor) gathered along the
reversed clamped relative position and transposed, with the
re-gathering edge case when query and key lengths differ; the two terms
are summed. -/
def baseTwoTermScore (ctx : AttCtx) (b h q k : ℕ) : ℚ :=
  (∑ e ∈ Finset.range ctx.headSize,
      ctx.query b h q e *
        linearNoBias ctx.hiddenSize ctx.posProjW
          (slicedRelEmb ctx (c2pPosIdx ctx q k)) (h * ctx.headSize + e)) +
  (if ctx.seqQ ≠ ctx.seqK then
      ∑ e ∈ Finset.range ctx.headSize,
        ctx.key b h k e *
          (linearWithBias ctx.hiddenSize ctx.posQProjW ctx.posQProjB
              (slicedRelEmb ctx (p2cPosIdx ctx k ((ctx.relPos q 0).toNat)))
              (h * ctx.headSize + e) / ctx.sqrtPosScale)
    else
      ∑ e ∈ Finset.range ctx.headSize,
        ctx.key b h k e *
          (linearWithBias ctx.hiddenSize ctx.posQProjW ctx.posQProjB
              (slicedRelEmb ctx (p2cPosIdx ctx k q)) (h * ctx.headSize + e) /
            ctx.sqrtPosScale))

/-! ## Configuration extension (`CustomDebertaConfig.add_extra_args`) -/

/-- The extra hyper-parameters read by `add_extra_args` (lines 55-69),
after the `getattr` defaulting. -/
structure ExtraArgs where
  gamma : ℚ
  lrAdv : ℚ
  pivotPhraseEmbeddings : Bool
  c2pAttPPEnabled : Bool
  p2cAttPPEnabled : Bool
  markEmbeddings : Option String
  c2m : Bool
  m2c : Bool
  c2mScalar : ℚ
  m2cScalar : ℚ
  markEnhancedClassifier : Bool

/-- Embeds `add_extra_args` (lines 55-69): after storing the attributes it
asserts
`not ((c2m or m2c) and (c2p_att_pp_enabled or p2c_att_pp_enabled))`. -/
def addExtraArgs (h : ExtraArgs) : Except String ExtraArgs :=
  if (h.c2m || h.m2c) && (h.c2pAttPPEnabled || h.p2cAttPPEnabled) then
    Except.error "Can't have both marks and pivot phrase enabled."
  else
    Except.ok h

/-! ## Construction-time check (`CustomDisentangledSelfAttention.__init__`) -/

/-- The head-count check of `__init__` (lines 160-164):
`hidden_size % num_attention_heads != 0` raises `ValueError`; with zero
heads Python's `%` itself raises `ZeroDivisionError`.  Returns `()` when
construction gets past the check. -/
def selfAttentionInitCheck (hiddenSize numAttentionHeads : ℕ) : Except String Unit :=
  if numAttentionHeads = 0 then
    Except.error "ZeroDivisionError: integer division or modulo by zero"
  else if hiddenSize % numAttentionHeads = 0 then
    Except.ok ()
  else
    Except.error "The hidden size is not a multiple of the number of attention heads"

/-! ## Token-classification loss (`CustomDebertaForTokenClassification`)

Lines 957-969: when labels are given and an attention mask is given, the
labels are replaced by `CrossEntropyLoss().ignore_index` (`-100`)
wherever the flattened mask is not `1`, and the loss is the mean of the
per-position cross-entropy over the non-ignored positions.  The
per-position cross-entropy function itself involves `log`/`exp`, which do
not exist over `ℚ`; it is therefore a parameter `cel`, and every theorem
below holds for all `cel`. -/

/-- Embeds `CrossEntropyLoss().ignore_index`. -/
def lossIgnoreIndex : ℤ := -100

/-- Embeds `active_labels = torch.where(attention_mask.view(-1) == 1, labels.view(-1),
ignore_index)` (lines 961-966), per flattened position. -/
def activeLabels (mask labels : ℕ → ℤ) (i : ℕ) : ℤ :=
  if mask i = 1 then labels i else lossIgnoreIndex

/-- Embeds `CrossEntropyLoss()` with mean reduction over `n` flattened
positions: positions whose target is the ignore index contribute neither
to the numerator nor to the denominator. -/
def crossEntropyMean (n : ℕ) (cel : (ℕ → ℚ) → ℤ → ℚ)
    (logits : ℕ → ℕ → ℚ) (targets : ℕ → ℤ) : ℚ :=
  (∑ i ∈ Finset.range n,
      if targets i = lossIgnoreIndex then 0 else cel (logits i) (targets i)) /
    (((Finset.range n).filter fun i => targets i ≠ lossIgnoreIndex).card : ℚ)

/-- The classification loss of lines 957-967 in the branch where both
`labels` and `attention_mask` are supplied. -/
def tokenClassificationLoss (n : ℕ) (cel : (ℕ → ℚ) → ℤ → ℚ)
    (mask labels : ℕ → ℤ) (logits : ℕ → ℕ → ℚ) : ℚ :=
  crossEntropyMean n cel logits (activeLabels mask labels)

/-! ## VAT (virtual adversarial training), lines 876-944 -/

/-- Embeds `B_ASP_LABEL` (line 879). -/
def B_ASP_LABEL : ℤ := 1

/-- Embeds `I_ASP_LABEL` (line 880). -/
def I_ASP_LABEL : ℤ := 2

/-- Embeds `aspect_idx_mask = (labels == B_ASP).float() + (labels == I_ASP).float()`
(line 881); the `unsqueeze`/`repeat` of lines 882-883 broadcast it over
the hidden dimension, so it only depends on `(batch, position)`. -/
def aspectIdxMask (labels : ℕ → ℕ → ℤ) (b s : ℕ) : ℚ :=
  (if labels b s = B_ASP_LABEL then 1 else 0) +
  (if labels b s = I_ASP_LABEL then 1 else 0)

/-- Embeds `r_adv_masked = r_adv * aspect_idx_mask` (line 885). -/
def rAdvMasked (labels : ℕ → ℕ → ℤ) (radv : ℕ → ℕ → ℕ → ℚ) (b s d : ℕ) : ℚ :=
  radv b s d * aspectIdxMask labels b s

/-- Embeds `perturbation = aspect_idx_mask * (r_adv_masked + lr_adv * r_adv_masked.grad)`
(line 927), computed inside `torch.no_grad()`. -/
def vatPerturbation (lrAdv : ℚ) (labels : ℕ → ℕ → ℤ)
    (radv grad : ℕ → ℕ → ℕ → ℚ) (b s d : ℕ) : ℚ :=
  aspectIdxMask labels b s * (rAdvMasked labels radv b s d + lrAdv * grad b s d)

/-- The autodiff-graph view of one scalar slot of the perturbation:
variable `0` is the corresponding slot of `r_adv`; `maskVal` is the
(constant) aspect-mask entry, `gradVal` the numeric content of
`r_adv_masked.grad` (a leaf tensor, not connected to the graph); the
whole computation sits inside `torch.no_grad()`, i.e. under `detach`. -/
def vatPerturbExpr (maskVal lrAdv gradVal : ℚ) : Expr :=
  Expr.detach
    (Expr.mul (Expr.const maskVal)
      (Expr.add (Expr.mul (Expr.var 0) (Expr.const maskVal))
        (Expr.mul (Expr.const lrAdv) (Expr.const gradVal))))

/-- The autodiff-graph view of the second-pass loss: `net` is the rest
of the network and loss (an arbitrary expression whose variable `1` is
the slot of `embedding_output` it consumes), and the second pass feeds it
`embedding_output + gamma * perturbation`
(`CustomDebertaModel.forward`, line 700). -/
def vatSecondPassLossExpr (net emb : Expr) (gamma maskVal lrAdv gradVal : ℚ) : Expr :=
  net.subst 1 (Expr.add emb (Expr.mul (Expr.const gamma) (vatPerturbExpr maskVal lrAdv gradVal)))

/-- Embeds `loss.backward()` (line 925) adds the new gradients onto the
per-parameter gradient buffers. -/
def backwardAccum (grads buffers : ℕ → ℚ) : ℕ → ℚ :=
  fun p => buffers p + grads p

/-- Embeds `self.zero_grad()` (line 928) clears every parameter gradient buffer
of the module. -/
def zeroGradBuffers (_ : ℕ → ℚ) : ℕ → ℚ :=
  fun _ => 0

/-- The module's parameter-gradient buffers as they stand when the
second pass starts: first-pass `backward`, then `zero_grad`
(lines 925-928). -/
def vatBuffersBeforeSecondPass (buffers grads : ℕ → ℚ) : ℕ → ℚ :=
  zeroGradBuffers (backwardAccum grads buffers)

/-! ## `CustomDebertaModel` refinement loop (lines 642-731) -/

/-- The mutable state of `CustomDebertaModel` that `forward` consults for
the refinement loop. -/
structure CustomDebertaModelState where
  zSteps : ℕ

/-- Embeds `__init__` (lines 643-650): `self.z_steps = 0`, and nothing in the
module ever assigns it again. -/
def mkCustomDebertaModel : CustomDebertaModelState :=
  { zSteps := 0 }

/-- The refinement loop body (lines 720-729): `n` repetitions of
`query_states = layer(hidden_states, query_states)`, collecting each
output. -/
def refineSteps {α : Type} (layerFn : α → α → α) (hidden : α) :
    ℕ → α → List α
  | 0, _ => []
  | n + 1, q =>
      let q2 := layerFn hidden q
      q2 :: refineSteps layerFn hidden n q2

/-- Embeds `sequence_output` as computed by `CustomDebertaModel.forward`
(lines 711-731): `encoded_layers` is the tuple of hidden states returned
by the encoder (whose last element is the final encoder layer's output);
when `z_steps > 1` the refinement loop runs `z_steps - 1` times from
`encoded_layers[-2]` and `encoded_layers[-1]` and appends its outputs;
the result is the last element. -/
def customDebertaSequenceOutput {α : Type} (m : CustomDebertaModelState)
    (layerFn : α → α → α) (dflt : α) (encodedLayers : List α) : α :=
  let withRefine :=
    if 1 < m.zSteps then
      encodedLayers ++
        refineSteps layerFn (encodedLayers.getD (encodedLayers.length - 2) dflt)
          (m.zSteps - 1) (encodedLayers.getLastD dflt)
    else encodedLayers
  withRefine.getLastD dflt

/-! ## Concrete instances used to exercise the model -/

/-- A minimal context with the stock DeBERTa attention types
(`pos_att_type = ["c2p", "p2c"]`), no optional term enabled, and
all-zero weight and activation tensors. -/
def zeroCtx : AttCtx where
  numHeads := 1
  headSize := 1
  hiddenSize := 1
  maxRelPos := 1
  c2pEnabled := true
  p2cEnabled := true
  p2pEnabled := false
  c2pPPEnabled := false
  p2cPPEnabled := false
  c2mEnabled := false
  m2cEnabled := false
  c2mScalar := 1
  m2cScalar := 1
  posProjW := fun _ _ => 0
  posQProjW := fun _ _ => 0
  posQProjB := fun _ => 0
  markProjW := fun _ _ => 0
  markProjB := fun _ => 0
  markQProjW := fun _ _ => 0
  markQProjB := fun _ => 0
  seqQ := 1
  seqK := 1
  query := fun _ _ _ _ => 0
  key := fun _ _ _ _ => 0
  relPosDim := 2
  relPos := fun _ _ => 0
  relEmb := fun _ _ => 0
  ppEmb := none
  markEmb := none
  marks := none
  sqrtPosScale := 1

/-- A binary mark tensor marking position `0` of every example. -/
def marksFun1 : ℕ → ℕ → ℤ := fun _ s => if s = 0 then 1 else 0

/-- A context with both pivot-phrase variants enabled on top of c2p/p2c,
with nonzero tensors. -/
def ctx1 : AttCtx :=
  { zeroCtx with
    c2pPPEnabled := true
    p2cPPEnabled := true
    maxRelPos := 2
    seqQ := 2
    seqK := 2
    query := fun _ _ _ _ => 1
    key := fun _ _ _ _ => 1
    posProjW := fun _ _ => 1
    posQProjW := fun _ _ => 1
    relEmb := fun _ _ => 1
    ppEmb := some fun _ _ => 3
    marks := some marksFun1 }

/-- Variant of `zeroCtx` with a rank-5 relative-position tensor. -/
def ctx8 : AttCtx := { zeroCtx with relPosDim := 5 }

/-- The scenario configuration of the c2m/m2c claim: hidden size 8, 2
heads (head size 4), sequence length 4, c2m and m2c enabled with scalars
`0.5` and `2.0` on top of the stock c2p/p2c attention types (the only
configuration in which `disentangled_att_bias` returns at all), with the
weights and per-call tensors left as parameters. -/
def mkCtx6 (maxRel : ℕ) (posProjW posQProjW markProjW markQProjW : ℕ → ℕ → ℚ)
    (posQProjB markProjB markQProjB : ℕ → ℚ)
    (query key : ℕ → ℕ → ℕ → ℕ → ℚ) (relPosDim : ℕ) (relPos : ℕ → ℕ → ℤ)
    (relEmb : ℕ → ℕ → ℚ) (markEmb : ℕ → ℕ → ℕ → ℚ) (marks : ℕ → ℕ → ℤ)
    (sqrtPosScale : ℚ) : AttCtx where
  numHeads := 2
  headSize := 4
  hiddenSize := 8
  maxRelPos := maxRel
  c2pEnabled := true
  p2cEnabled := true
  p2pEnabled := false
  c2pPPEnabled := false
  p2cPPEnabled := false
  c2mEnabled := true
  m2cEnabled := true
  c2mScalar := 1 / 2
  m2cScalar := 2
  posProjW := posProjW
  posQProjW := posQProjW
  posQProjB := posQProjB
  markProjW := markProjW
  markProjB := markProjB
  markQProjW := markQProjW
  markQProjB := markQProjB
  seqQ := 4
  seqK := 4
  query := query
  key := key
  relPosDim := relPosDim
  relPos := relPos
  relEmb := relEmb
  ppEmb := none
  markEmb := some markEmb
  marks := some marks
  sqrtPosScale := sqrtPosScale

/-- A concrete instance of the scenario configuration in which only the
p2c term is nonzero: the query tensor is all-zero (killing c2c, c2p and
c2m), the mark projections are all-zero (killing m2c), and the key /
relative-embedding / `pos_q_proj` values make p2c equal `1`
everywhere. -/
def ctx6 : AttCtx :=
  mkCtx6 4
    (fun _ _ => 0) (fun j i => if j = 0 ∧ i = 0 then 1 else 0)
    (fun _ _ => 0) (fun _ _ => 0)
    (fun _ => 0) (fun _ => 0) (fun _ => 0)
    (fun _ _ _ _ => 0) (fun _ _ _ e => if e = 0 then 1 else 0)
    2 (fun q k => (q : ℤ) - (k : ℤ))
    (fun _ _ => 1) (fun _ _ _ => 0) (fun _ _ => 0)
    1

/-- A violating flag combination for `add_extra_args`: the
mark-enhanced-classifier flag together with the c2m term. -/
def extraArgs7 : ExtraArgs where
  gamma := 1 / 10000
  lrAdv := 10
  pivotPhraseEmbeddings := false
  c2pAttPPEnabled := false
  p2cAttPPEnabled := false
  markEmbeddings := none
  c2m := true
  m2c := false
  c2mScalar := 1
  m2cScalar := 1
  markEnhancedClassifier := true

/-- Concrete mask for the loss witness: only position `0` is active. -/
def maskW : ℕ → ℤ := fun i => if i = 0 then 1 else 0

/-- Concrete labels for the loss witness. -/
def labelsW : ℕ → ℤ := fun _ => 1

/-- Concrete logits, first variant. -/
def logitsW1 : ℕ → ℕ → ℚ := fun i c => if i = 0 then (c : ℚ) else 5

/-- Concrete logits, second variant: differs from the first exactly on
the padding position. -/
def logitsW2 : ℕ → ℕ → ℚ := fun i c => if i = 0 then (c : ℚ) else 7

/-- Concrete per-position loss function for the loss witness. -/
def celW : (ℕ → ℚ) → ℤ → ℚ := fun v _ => v 0

/-! ## Lemmas about the expression language -/

theorem Expr.detachedIn_of_avoids (i : ℕ) :
    ∀ e : Expr, e.avoids i = true → e.detachedIn i = true := by
  intro e
  induction e with
  | const c => intro _; rfl
  | var j => intro h; exact h
  | add a b iha ihb =>
      intro h
      simp only [Expr.avoids, Bool.and_eq_true] at h
      simp only [Expr.detachedIn, Bool.and_eq_true]
      exact ⟨iha h.1, ihb h.2⟩
  | mul a b iha ihb =>
      intro h
      simp only [Expr.avoids, Bool.and_eq_true] at h
      simp only [Expr.detachedIn, Bool.and_eq_true]
      exact ⟨iha h.1, ihb h.2⟩
  | detach a iha => intro _; rfl

/-- An expression in which variable `i` appears only under `detach` has
zero derivative in `i`. -/
theorem Expr.deriv_eq_zero_of_detachedIn (ρ : ℕ → ℚ) (i : ℕ) :
    ∀ e : Expr, e.detachedIn i = true → e.deriv ρ i = 0 := by
  intro e
  induction e with
  | const c => intro _; rfl
  | var j =>
      intro h
      simp only [Expr.detachedIn, decide_eq_true_eq] at h
      simp [Expr.deriv, h]
  | add a b iha ihb =>
      intro h
      simp only [Expr.detachedIn, Bool.and_eq_true] at h
      simp [Expr.deriv, iha h.1, ihb h.2]
  | mul a b iha ihb =>
      intro h
      simp only [Expr.detachedIn, Bool.and_eq_true] at h
      simp [Expr.deriv, iha h.1, ihb h.2]
  | detach a _ => intro _; rfl

/-- Substituting an `i`-detached expression into an `i`-free expression
yields an `i`-detached expression. -/
theorem Expr.detachedIn_subst (i j : ℕ) (u : Expr)
    (hu : u.detachedIn i = true) :
    ∀ e : Expr, e.avoids i = true → (e.subst j u).detachedIn i = true := by
  intro e
  induction e with
  | const c => intro _; rfl
  | var k =>
      intro h
      by_cases hk : k = j
      · simp [Expr.subst, hk, hu]
      · simp only [Expr.subst, if_neg hk]
        exact h
  | add a b iha ihb =>
      intro h
      simp only [Expr.avoids, Bool.and_eq_true] at h
      simp only [Expr.subst, Expr.detachedIn, Bool.and_eq_true]
      exact ⟨iha h.1, ihb h.2⟩
  | mul a b iha ihb =>
      intro h
      simp only [Expr.avoids, Bool.and_eq_true] at h
      simp only [Expr.subst, Expr.detachedIn, Bool.and_eq_true]
      exact ⟨iha h.1, ihb h.2⟩
  | detach a _ => intro _; rfl

/-! ## Claim theorems -/

/-- C9: for every configuration with a positive head count, construction
of `CustomDisentangledSelfAttention` gets past the hidden-size check
exactly when `hidden_size` is divisible by `num_attention_heads`;
otherwise it raises. -/
theorem selfAttention_init_divisibility (hiddenSize numHeads : ℕ)
    (hpos : 0 < numHeads) :
    selfAttentionInitCheck hiddenSize numHeads = Except.ok () ↔
      numHeads ∣ hiddenSize := by
  have hz : numHeads ≠ 0 := Nat.pos_iff_ne_zero.mp hpos
  rw [selfAttentionInitCheck, if_neg hz]
  by_cases h : hiddenSize % numHeads = 0
  · simp [h, Nat.dvd_of_mod_eq_zero h]
  · rw [if_neg h]
    constructor
    · intro hcontra
      exact absurd hcontra (by simp)
    · intro hd
      exact absurd (Nat.eq_zero_of_dvd_of_lt hd (by omega)).symm (by omega)

/-- Witness for C9 at `hidden_size = 768`, `num_attention_heads = 12`. -/
theorem selfAttention_init_divisibility_witness :
    0 < 12 ∧ selfAttentionInitCheck 768 12 = Except.ok () :=
  ⟨by decide, (selfAttention_init_divisibility 768 12 (by decide)).mpr (by decide)⟩

/-- C10: `CustomDebertaModel.__init__` fixes `z_steps = 0`, so the
post-stack refinement branch of `forward` never executes and the
returned sequence output is always the final encoder layer's hidden
state. -/
theorem customDeberta_no_refinement {α : Type} (layerFn : α → α → α)
    (dflt : α) (encodedLayers : List α) :
    mkCustomDebertaModel.zSteps = 0 ∧
    customDebertaSequenceOutput mkCustomDebertaModel layerFn dflt encodedLayers =
      encodedLayers.getLastD dflt := by
  refine ⟨rfl, ?_⟩
  simp [customDebertaSequenceOutput, mkCustomDebertaModel]

/-- Counterexample for C7: enabling `mark_enhanced_classifier` together
with `c2m` passes `add_extra_args` without raising, although the claim
demands a configuration-time failure for this combination. -/
theorem addExtraArgs_counterexample :
    extraArgs7.markEnhancedClassifier = true ∧ extraArgs7.c2m = true ∧
    addExtraArgs extraArgs7 = Except.ok extraArgs7 :=
  ⟨rfl, rfl, rfl⟩

/-- C7 (amended): `add_extra_args` raises exactly when one of the c2m /
m2c terms is enabled together with one of the pivot-phrase attention
variants `c2p_att_pp` / `p2c_att_pp`; the `pivot_phrase_embeddings` and
`mark_enhanced_classifier` flags take no part in the check. -/
theorem addExtraArgs_assert_iff (h : ExtraArgs) :
    (∃ msg, addExtraArgs h = Except.error msg) ↔
      ((h.c2m || h.m2c) && (h.c2pAttPPEnabled || h.p2cAttPPEnabled)) = true := by
  by_cases hc : ((h.c2m || h.m2c) && (h.c2pAttPPEnabled || h.p2cAttPPEnabled)) = true
  · simp [addExtraArgs, hc]
  · simp [addExtraArgs, hc]

/-- C8: under the stock `pos_att_type` (c2p and p2c present), and with
the optional tensors that the enabled flags consume actually supplied
(pivot-phrase embeddings when a pp flag is set, mark embeddings when c2m
or m2c is set — absence makes Python raise `TypeError` on the `None`
regardless of rank), `disentangled_att_bias` raises exactly when the
supplied relative-position tensor's rank is outside `{2, 3, 4}`; in
particular a rank-5 tensor raises with the rank error, and the result is
then the same for arbitrary query/key tensors — the failure happens
before any matrix multiplication is performed. -/
theorem disentangledAttBias_rank_check (ctx : AttCtx)
    (hc2p : ctx.c2pEnabled = true) (hp2c : ctx.p2cEnabled = true)
    (hpp : (ctx.c2pPPEnabled || ctx.p2cPPEnabled) = true → ctx.ppEmb.isSome = true)
    (hmk : (ctx.c2mEnabled || ctx.m2cEnabled) = true → ctx.markEmb.isSome = true) :
    ((∃ msg, disentangledAttBias ctx = Except.error msg) ↔
        ¬(ctx.relPosDim = 2 ∨ ctx.relPosDim = 3 ∨ ctx.relPosDim = 4)) ∧
    (ctx.relPosDim = 5 →
      ∀ q2 k2 : ℕ → ℕ → ℕ → ℕ → ℚ,
        disentangledAttBias { ctx with query := q2, key := k2 } =
          Except.error
            ("Relative position ids must be of dim 2 or 3 or 4. " ++
              toString ctx.relPosDim)) := by
  have h1 : ((ctx.c2pPPEnabled || ctx.p2cPPEnabled) && !ctx.ppEmb.isSome) = false := by
    by_cases hf : (ctx.c2pPPEnabled || ctx.p2cPPEnabled) = true
    · simp [hf, hpp hf]
    · rw [Bool.not_eq_true] at hf
      simp [hf]
  have h2 : (ctx.c2pPPEnabled && !(ctx.c2pEnabled || ctx.p2pEnabled)) = false := by
    simp [hc2p]
  have h3 : (ctx.p2cPPEnabled && !(ctx.p2cEnabled || ctx.p2pEnabled)) = false := by
    simp [hp2c]
  have h4 : (ctx.m2cEnabled && !ctx.markEmb.isSome) = false := by
    by_cases hf : ctx.m2cEnabled = true
    · simp [hf, hmk (by simp [hf])]
    · rw [Bool.not_eq_true] at hf
      simp [hf]
  have h5 : (ctx.c2mEnabled && !ctx.markEmb.isSome) = false := by
    by_cases hf : ctx.c2mEnabled = true
    · simp [hf, hmk (by simp [hf])]
    · rw [Bool.not_eq_true] at hf
      simp [hf]
  constructor
  · by_cases hd : ctx.relPosDim = 2 ∨ ctx.relPosDim = 3 ∨ ctx.relPosDim = 4
    · rw [disentangledAttBias, if_pos hd,
        if_neg (by rw [h1]; exact Bool.false_ne_true),
        if_neg (by rw [h2]; exact Bool.false_ne_true),
        if_neg (by rw [h3]; exact Bool.false_ne_true),
        if_neg (by rw [h4]; exact Bool.false_ne_true),
        if_neg (by rw [h5]; exact Bool.false_ne_true),
        if_pos hc2p, if_pos hp2c]
      simp [hd]
    · simp [disentangledAttBias, hd]
  · intro hd5 q2 k2
    have hd : ¬(ctx.relPosDim = 2 ∨ ctx.relPosDim = 3 ∨ ctx.relPosDim = 4) := by
      rw [hd5]; decide
    simp [disentangledAttBias, hd]

/-- Witness for C8: a concrete rank-5 context raises the rank error. -/
theorem disentangledAttBias_rank_check_witness :
    ctx8.c2pEnabled = true ∧
    disentangledAttBias ctx8 =
      Except.error ("Relative position ids must be of dim 2 or 3 or 4. " ++
        toString ctx8.relPosDim) := by
  refine ⟨rfl, ?_⟩
  have h := (disentangledAttBias_rank_check ctx8 rfl rfl (by decide) (by decide)).2
    rfl ctx8.query ctx8.key
  exact h

/-- C4: with labels and an attention mask supplied, positions whose mask
is `0` contribute nothing to the classification loss — the loss is
unchanged under arbitrary modification of the logits at masked-out
positions, for every per-position cross-entropy function, because such
positions get the ignore-index sentinel as target. -/
theorem maskedLoss_ignores_padding (n : ℕ) (cel : (ℕ → ℚ) → ℤ → ℚ)
    (mask labels : ℕ → ℤ) (logits1 logits2 : ℕ → ℕ → ℚ) (j : ℕ)
    (hagree : ∀ i < n, mask i = 1 → logits1 i = logits2 i)
    (hj : mask j = 0) :
    tokenClassificationLoss n cel mask labels logits1 =
      tokenClassificationLoss n cel mask labels logits2 ∧
    activeLabels mask labels j = lossIgnoreIndex := by
  constructor
  · unfold tokenClassificationLoss crossEntropyMean
    congr 1
    apply Finset.sum_congr rfl
    intro i hi
    by_cases hm : mask i = 1
    · by_cases hl : activeLabels mask labels i = lossIgnoreIndex
      · rw [if_pos hl, if_pos hl]
      · rw [if_neg hl, if_neg hl, hagree i (Finset.mem_range.mp hi) hm]
    · simp [activeLabels, hm]
  · simp [activeLabels, hj]

/-- Witness for C4: two logit tensors differing only on the padding
position produce the same loss. -/
theorem maskedLoss_ignores_padding_witness :
    (∀ i < 2, maskW i = 1 → logitsW1 i = logitsW2 i) ∧ maskW 1 = 0 ∧
    tokenClassificationLoss 2 celW maskW labelsW logitsW1 =
      tokenClassificationLoss 2 celW maskW labelsW logitsW2 ∧
    activeLabels maskW labelsW 1 = lossIgnoreIndex := by
  have hagree : ∀ i < 2, maskW i = 1 → logitsW1 i = logitsW2 i := by
    intro i hi hm
    interval_cases i
    · rfl
    · exact absurd hm (by decide)
  have h := maskedLoss_ignores_padding 2 celW maskW labelsW logitsW1 logitsW2 1
    hagree (by decide)
  exact ⟨hagree, by decide, h.1, h.2⟩

/-- C5: in VAT training mode the second-pass perturbation equals the
aspect mask (`1` exactly at positions labeled aspect-begin or
aspect-inside, broadcast over the hidden dimension) times the sum of the
original masked random sample and `lr_adv` times the stored gradient;
and, being built under `torch.no_grad()`, its autodiff-graph view has
zero derivative in every variable. -/
theorem vatPerturbation_formula (lrAdv : ℚ) (labels : ℕ → ℕ → ℤ)
    (radv grad : ℕ → ℕ → ℕ → ℚ) (b s d : ℕ) (ρ : ℕ → ℚ) (i : ℕ)
    (maskVal gradVal : ℚ) :
    vatPerturbation lrAdv labels radv grad b s d =
      (if labels b s = B_ASP_LABEL ∨ labels b s = I_ASP_LABEL then (1 : ℚ) else 0) *
        (rAdvMasked labels radv b s d + lrAdv * grad b s d) ∧
    (vatPerturbExpr maskVal lrAdv gradVal).deriv ρ i = 0 := by
  constructor
  · unfold vatPerturbation aspectIdxMask
    by_cases h1 : labels b s = B_ASP_LABEL
    · have h2 : labels b s ≠ I_ASP_LABEL := by rw [h1]; decide
      simp [h1, h2, B_ASP_LABEL, I_ASP_LABEL]
    · by_cases h2 : labels b s = I_ASP_LABEL
      · simp [h1, h2, B_ASP_LABEL, I_ASP_LABEL]
      · simp [h1, h2]
  · rfl

/-- C3: before the second VAT pass every module-parameter gradient
buffer accumulated by the first backward pass has been cleared by
`self.zero_grad()`, and the second-pass loss — obtained by feeding any
network expression the perturbed embedding, where the perturbation was
built under `torch.no_grad()` — has zero gradient with respect to the
first-pass random sample `r_adv`: no gradient leaks between the two
passes. -/
theorem vat_no_gradient_leakage (net emb : Expr)
    (hnet : net.avoids 0 = true) (hemb : emb.avoids 0 = true)
    (buffers grads : ℕ → ℚ) (gamma maskVal lrAdv gradVal : ℚ)
    (p : ℕ) (ρ : ℕ → ℚ) :
    vatBuffersBeforeSecondPass buffers grads p = 0 ∧
    (vatSecondPassLossExpr net emb gamma maskVal lrAdv gradVal).deriv ρ 0 = 0 := by
  refine ⟨rfl, ?_⟩
  apply Expr.deriv_eq_zero_of_detachedIn
  apply Expr.detachedIn_subst 0 1 _ _ net hnet
  simp only [Expr.detachedIn, Bool.and_eq_true]
  exact ⟨Expr.detachedIn_of_avoids 0 emb hemb, trivial, trivial⟩

/-- Witness for C3 with a concrete quadratic network expression. -/
theorem vat_no_gradient_leakage_witness :
    (Expr.mul (Expr.var 1) (Expr.var 1)).avoids 0 = true ∧
    (Expr.var 2).avoids 0 = true ∧
    vatBuffersBeforeSecondPass (fun _ => 3) (fun _ => 5) 7 = 0 ∧
    (vatSecondPassLossExpr (Expr.mul (Expr.var 1) (Expr.var 1)) (Expr.var 2)
        (1 / 10000) 1 10 2).deriv (fun _ => 4) 0 = 0 := by
  have h := vat_no_gradient_leakage (Expr.mul (Expr.var 1) (Expr.var 1))
    (Expr.var 2) (by decide) (by decide) (fun _ => 3) (fun _ => 5)
    (1 / 10000) 1 10 2 7 (fun _ => 4)
  exact ⟨by decide, by decide, h.1, h.2⟩

/-- C1: with the pivot-phrase variants enabled and a mark tensor plus
pivot-phrase embeddings supplied, the c2p bias term equals the
pivot-phrase-derived tensor exactly at every `(batch, head, query, key)`
index whose broadcast selector (the mark at the key position) is `1`,
and the standard position-derived tensor exactly where it is `0`; the
p2c term likewise with the mark at the query position — exact selection,
never a blend; and the bias score is exactly the sum of the two selected
terms. -/
theorem pivotPhrase_selection (ctx : AttCtx) (m : ℕ → ℕ → ℤ)
    (hc2p : ctx.c2pEnabled = true) (hp2c : ctx.p2cEnabled = true)
    (hpp1 : ctx.c2pPPEnabled = true) (hpp2 : ctx.p2cPPEnabled = true)
    (hcm : ctx.c2mEnabled = false) (hmc : ctx.m2cEnabled = false)
    (hm : ctx.marks = some m) (hpe : ctx.ppEmb.isSome = true)
    (b h q k : ℕ) :
    (m b k = 1 → c2pTerm ctx b h q k = c2pAttPPv ctx b h q k) ∧
    (m b k = 0 → c2pTerm ctx b h q k = c2pAttOrig ctx b h q k) ∧
    (m b q = 1 → p2cTerm ctx b h q k = p2cAttPPv ctx b h q k) ∧
    (m b q = 0 → p2cTerm ctx b h q k = p2cAttOrig ctx b h q k) ∧
    attBiasScore ctx b h q k = c2pTerm ctx b h q k + p2cTerm ctx b h q k := by
  have hms : ctx.marks.isSome = true := by rw [hm]; rfl
  refine ⟨?_, ?_, ?_, ?_, ?_⟩
  · intro hval
    simp [c2pTerm, hpe, hms, hpp1, marksD, hm, hval]
  · intro hval
    simp [c2pTerm, hpe, hms, hpp1, marksD, hm, hval]
  · intro hval
    simp [p2cTerm, hpe, hms, hpp2, marksD, hm, hval]
  · intro hval
    simp [p2cTerm, hpe, hms, hpp2, marksD, hm, hval]
  · simp [attBiasScore, hc2p, hp2c, hcm, hmc]

/-- Witness for C1: in `ctx1` the mark tensor is `1` at position `0` and
`0` at position `1`, so the c2p term at key `0` takes the pivot-phrase
value and the p2c term at query `1` takes the standard value. -/
theorem pivotPhrase_selection_witness :
    marksFun1 0 0 = 1 ∧ marksFun1 0 1 = 0 ∧
    c2pTerm ctx1 0 0 0 0 = c2pAttPPv ctx1 0 0 0 0 ∧
    p2cTerm ctx1 0 0 1 0 = p2cAttOrig ctx1 0 0 1 0 := by
  refine ⟨by decide, by decide, ?_, ?_⟩
  · exact (pivotPhrase_selection ctx1 marksFun1 rfl rfl rfl rfl rfl rfl rfl rfl
      0 0 0 0).1 (by decide)
  · exact (pivotPhrase_selection ctx1 marksFun1 rfl rfl rfl rfl rfl rfl rfl rfl
      0 0 1 0).2.2.2.1 (by decide)

/-- C2: with every optional term disabled (no pivot-phrase variants, no
c2m/m2c) and relative attention with c2p and p2c enabled,
`disentangled_att_bias` returns normally and its score coincides
pointwise with the standard two-term c2p + p2c disentangled attention
score of the unmodified base computation. -/
theorem base_two_term_refinement (ctx : AttCtx)
    (hc2p : ctx.c2pEnabled = true) (hp2c : ctx.p2cEnabled = true)
    (hpp1 : ctx.c2pPPEnabled = false) (hpp2 : ctx.p2cPPEnabled = false)
    (hcm : ctx.c2mEnabled = false) (hmc : ctx.m2cEnabled = false)
    (hdim : ctx.relPosDim = 2 ∨ ctx.relPosDim = 3 ∨ ctx.relPosDim = 4)
    (b h q k : ℕ) :
    disentangledAttBias ctx = Except.ok (attOutput ctx) ∧
    (attOutput ctx).score b h q k = baseTwoTermScore ctx b h q k := by
  constructor
  · simp [disentangledAttBias, hdim, hc2p, hp2c, hpp1, hpp2, hcm, hmc]
  · show attBiasScore ctx b h q k = baseTwoTermScore ctx b h q k
    rw [attBiasScore, if_pos hc2p, if_pos hp2c, if_neg (by rw [hcm]; decide),
      if_neg (by rw [hmc]; decide)]
    rw [c2pTerm, if_neg (by rw [hpp1]; simp), p2cTerm, if_neg (by rw [hpp2]; simp)]
    rw [baseTwoTermScore, c2pAttOrig, p2cAttOrig]
    by_cases hqk : ctx.seqQ ≠ ctx.seqK
    · rw [if_pos hqk, if_pos hqk]
      simp [p2cGathered, posKeyHeads, posQueryHeads]
    · rw [if_neg hqk, if_neg hqk]
      simp [p2cGathered, posKeyHeads, posQueryHeads]

/-- Witness for C2 at the all-zero stock-configuration context. -/
theorem base_two_term_refinement_witness :
    zeroCtx.c2pEnabled = true ∧ zeroCtx.c2mEnabled = false ∧
    disentangledAttBias zeroCtx = Except.ok (attOutput zeroCtx) ∧
    (attOutput zeroCtx).score 0 0 0 0 = baseTwoTermScore zeroCtx 0 0 0 0 := by
  have h := base_two_term_refinement zeroCtx rfl rfl rfl rfl rfl rfl
    (Or.inl rfl) 0 0 0 0
  exact ⟨rfl, rfl, h.1, h.2⟩

/-- Counterexample for C6: in the scenario configuration (hidden 8, 2
heads, seq 4, c2m/m2c scalars `0.5`/`2.0`) the accumulated raw attention
score does not equal content-content plus `0.5`·c2m plus `2.0`·m2c: at
`ctx6` the left side contains a nonzero p2c contribution.  (Enabling
c2m/m2c without c2p/p2c is no escape: `disentangled_att_bias` then
raises `UnboundLocalError` at the return-tuple line and produces no
score at all.) -/
theorem c2m_m2c_accumulation_counterexample :
    accumulatedAttentionScores ctx6 0 0 0 0 ≠
      contentScore ctx6 0 0 0 0 + (1 / 2) * c2mAttRaw ctx6 0 0 0 0 +
        2 * m2cAttRaw ctx6 0 0 0 0 := by
  have hL : accumulatedAttentionScores ctx6 0 0 0 0 = 1 := by
    simp [accumulatedAttentionScores, contentScore, attBiasScore, ctx6, mkCtx6,
      c2pTerm, p2cTerm, c2pAttOrig, p2cAttOrig, p2cGathered, c2mAttRaw,
      m2cAttRaw, posKeyHeads, ppKeyHeads, posQueryHeads, markKeyHeads,
      markQueryHeads, linearNoBias, linearWithBias, slicedRelEmb, markEmbD,
      marksD, Finset.sum_range_succ, Finset.sum_range_zero]
  have hR : contentScore ctx6 0 0 0 0 + (1 / 2) * c2mAttRaw ctx6 0 0 0 0 +
      2 * m2cAttRaw ctx6 0 0 0 0 = 0 := by
    simp [contentScore, c2mAttRaw, m2cAttRaw, ctx6, mkCtx6, markKeyHeads,
      markQueryHeads, linearNoBias, linearWithBias, markEmbD,
      Finset.sum_range_succ, Finset.sum_range_zero]
  rw [hL, hR]
  norm_num

/-- C6 (amended): in the scenario configuration the accumulated raw
attention score equals the content-content component plus the c2p and
p2c components plus `0.5` times the (unscaled) c2m component plus `2.0`
times the (unscaled) m2c component, elementwise, for all weights and
input tensors — the two mark scalars enter independently. -/
theorem c2m_m2c_scaled_accumulation
    (maxRel : ℕ) (posW posqW markW markqW : ℕ → ℕ → ℚ)
    (posqB markB markqB : ℕ → ℚ) (qy ky : ℕ → ℕ → ℕ → ℕ → ℚ)
    (rpd : ℕ) (rp : ℕ → ℕ → ℤ) (re : ℕ → ℕ → ℚ) (me : ℕ → ℕ → ℕ → ℚ)
    (mks : ℕ → ℕ → ℤ) (sc : ℚ) (b h q k : ℕ) :
    accumulatedAttentionScores
        (mkCtx6 maxRel posW posqW markW markqW posqB markB markqB qy ky rpd rp re me mks sc)
        b h q k =
      contentScore
          (mkCtx6 maxRel posW posqW markW markqW posqB markB markqB qy ky rpd rp re me mks sc)
          b h q k +
        c2pAttOrig
          (mkCtx6 maxRel posW posqW markW markqW posqB markB markqB qy ky rpd rp re me mks sc)
          b h q k +
        p2cAttOrig
          (mkCtx6 maxRel posW posqW markW markqW posqB markB markqB qy ky rpd rp re me mks sc)
          b h q k +
        (1 / 2) * c2mAttRaw
          (mkCtx6 maxRel posW posqW markW markqW posqB markB markqB qy ky rpd rp re me mks sc)
          b h q k +
        2 * m2cAttRaw
          (mkCtx6 maxRel posW posqW markW markqW posqB markB markqB qy ky rpd rp re me mks sc)
          b h q k := by
  simp only [accumulatedAttentionScores, attBiasScore, mkCtx6, c2pTerm, p2cTerm,
    Option.isSome_none, Bool.false_and, Bool.and_false, if_true, if_false,
    Bool.false_eq_true, ite_true, ite_false]
  ring

end Libert

